import Mathlib

/-!
Shallow embedding of the AWS Braket executor plugin
(covalent_braket_plugin/braket.py) for the Covalent dispatcher.

Remote services (STS identity, the Braket job service, S3, CloudWatch logs)
are modelled as explicit inputs: the successive values they return are
parameters of the embedded functions, and the raising of a Python exception
is modelled as an explicit error outcome.
-/

namespace BraketPlugin

/-- Executor configuration, from `BraketExecutor.__init__` (braket.py lines 60-85). -/
structure BraketConfig where
  credentials : String
  profile : String
  s3BucketName : String
  ecrRepoName : String
  braketJobExecutionRoleName : String
  quantumDevice : String
  classicalDevice : String
  storage : Nat
  timeLimit : Nat
  pollFreq : Nat
  deriving DecidableEq

/-- Embeds `image_tag = f"{dispatch_id}-{node_id}"` (braket.py line 100).
`node_id : Int` since the Python parameter is an int with default `-1`. -/
def imageTag (dispatchId : String) (nodeId : Int) : String :=
  dispatchId ++ "-" ++ toString nodeId

/-- The terminal status labels of the poll loop (braket.py line 367). -/
def terminalStatuses : List String := ["COMPLETED", "FAILED", "CANCELLED"]

/-- Embeds the test `status in ["COMPLETED", "FAILED", "CANCELLED"]` (braket.py line 367). -/
def isTerminal (s : String) : Bool := terminalStatuses.contains s

/-- Observable events of the poll loop: a `get_status` query returning a
status string, or a `time.sleep` of the given duration. -/
inductive Event where
  | query (status : String)
  | sleep (duration : Nat)
  deriving DecidableEq

/-- Embeds `_poll_braket_job` (braket.py lines 354-369), the loop part:
`status = get_status(...)`; `while status not in [...]: time.sleep(poll_freq);
status = get_status(...)`.  The list holds the successive status strings
returned by `get_status`; the result is the final status together with the
trace of queries and sleeps, or `none` when the responses run out before a
terminal status (the Python loop would keep polling). -/
def pollLoop (pollFreq : Nat) : List String → Option (String × List Event)
  | [] => none
  | s :: rest =>
    if isTerminal s then some (s, [Event.query s])
    else
      match pollLoop pollFreq rest with
      | none => none
      | some (fin, evs) => some (fin, Event.query s :: Event.sleep pollFreq :: evs)

/-- Embeds `if status == "FAILED": failure_reason = braket.get_job(...)["failureReason"];
raise Exception(failure_reason)` (braket.py lines 371-373).  `failureReason` is
the string the job service returns for the failed job; the raised exception is
the error branch, carrying exactly that string. -/
def pollBraketJob (pollFreq : Nat) (statuses : List String) (failureReason : String) :
    Option (Except String (String × List Event)) :=
  match pollLoop pollFreq statuses with
  | none => none
  | some (status, evs) =>
    if status == "FAILED" then some (Except.error failureReason)
    else some (Except.ok (status, evs))

def isQueryEvent : Event → Bool
  | Event.query _ => true
  | Event.sleep _ => false

def isSleepEvent : Event → Bool
  | Event.query _ => false
  | Event.sleep _ => true

def countQueries (evs : List Event) : Nat := evs.countP isQueryEvent

def countSleeps (evs : List Event) : Nat := evs.countP isSleepEvent

/-- The expected poll trace over responses `ss`: one query per response with a
sleep between consecutive queries and no sleep before the first query. -/
def pollTrace (pollFreq : Nat) (ss : List String) : List Event :=
  List.intersperse (Event.sleep pollFreq) (ss.map Event.query)

theorem pollLoop_eq_pollTrace (pollFreq : Nat) :
    ∀ (ss : List String) (h : ss ≠ []),
      isTerminal (ss.getLast h) = true →
      (∀ s ∈ ss.dropLast, isTerminal s = false) →
      pollLoop pollFreq ss = some (ss.getLast h, pollTrace pollFreq ss) := by
  intro ss
  induction ss with
  | nil => intro h; exact absurd rfl h
  | cons s rest ih =>
    intro h hterm hpre
    match rest with
    | [] =>
      simp only [List.getLast_singleton] at hterm
      simp [pollLoop, hterm, pollTrace]
    | r :: t =>
      have hne : r :: t ≠ [] := List.cons_ne_nil r t
      have hs : isTerminal s = false := by
        apply hpre
        simp [List.dropLast_cons₂]
      have hlast : (s :: r :: t).getLast h = (r :: t).getLast hne :=
        List.getLast_cons hne
      have hterm' : isTerminal ((r :: t).getLast hne) = true := by
        rw [← hlast]; exact hterm
      have hpre' : ∀ x ∈ (r :: t).dropLast, isTerminal x = false := by
        intro x hx
        apply hpre
        simp only [List.dropLast_cons₂, List.mem_cons]
        exact Or.inr hx
      have := ih hne hterm' hpre'
      have hstep : pollLoop pollFreq (s :: r :: t) =
          match pollLoop pollFreq (r :: t) with
          | none => none
          | some (fin, evs) => some (fin, Event.query s :: Event.sleep pollFreq :: evs) := by
        rw [pollLoop, hs]
        simp
      rw [hstep, this, hlast]
      simp [pollTrace, List.intersperse_cons_cons]

theorem countP_pollTrace_queries (pollFreq : Nat) (ss : List String) :
    countQueries (pollTrace pollFreq ss) = ss.length := by
  induction ss with
  | nil => rfl
  | cons s rest ih =>
    match rest with
    | [] => rfl
    | r :: t =>
      simp [pollTrace, List.intersperse_cons_cons, countQueries,
        List.countP_cons, isQueryEvent, isSleepEvent] at ih ⊢
      omega

theorem countP_pollTrace_sleeps (pollFreq : Nat) (ss : List String) :
    countSleeps (pollTrace pollFreq ss) = ss.length - 1 := by
  induction ss with
  | nil => rfl
  | cons s rest ih =>
    match rest with
    | [] => rfl
    | r :: t =>
      simp [pollTrace, List.intersperse_cons_cons, countSleeps,
        List.countP_cons, isQueryEvent, isSleepEvent] at ih ⊢
      omega

theorem pollTrace_head (pollFreq : Nat) (s : String) (rest : List String) :
    (pollTrace pollFreq (s :: rest)).head? = some (Event.query s) := by
  match rest with
  | [] => rfl
  | r :: t => rfl

/-- Embeds `log_stream_prefix = "covalent-{image_tag}"` (braket.py line 408).  The
source assigns the plain string literal, not an f-string, so the prefix is
the literal text `covalent-` followed by the characters `\x7bimage_tag\x7d`,
whatever the image tag is.  The backslash escapes denote the brace characters. -/
def logStreamPrefixOf (_imageTag : String) : String := "covalent-\x7bimage_tag\x7d"

/-- Embeds `log_events += event["message"] + "\n"` over the returned events
(braket.py lines 421-423). -/
def concatLogs (messages : List String) : String :=
  messages.foldl (fun acc m => acc ++ m ++ "\n") ""

/-- Outcome of `_query_result`: the returned triple, or a raised exception. -/
inductive QueryOutcome where
  | ok (result : Nat) (logs : String) (third : String)
  | raised (err : String)
  deriving DecidableEq

/-- Embeds `_query_result` (braket.py lines 375-425).
The S3 download is assumed to succeed (the file exists after COMPLETED);
`deserializeOk` tells whether `pickle.load` succeeds, in which case it yields
`resultValue` (result payloads are abstracted as naturals).  `streamsFor p` is
the list of stream names `describe_log_streams` returns for prefix `p`, and
`eventsFor name` the messages `get_log_events` returns for stream `name`.
The first component records whether `os.remove` ran on the local scratch copy:
when `pickle.load` raises, the exception propagates before the `os.remove`
line, so the copy is not removed; on an empty stream list the subscript
`["logStreams"][0]` raises an index error (after the removal). -/
def queryResult (deserializeOk : Bool) (resultValue : Nat) (tag : String)
    (streamsFor eventsFor : String → List String) : Bool × QueryOutcome :=
  if deserializeOk then
    match streamsFor (logStreamPrefixOf tag) with
    | [] => (true, QueryOutcome.raised "IndexError")
    | streamName :: _ =>
      (true, QueryOutcome.ok resultValue (concatLogs (eventsFor streamName)) "")
  else
    (false, QueryOutcome.raised "UnpicklingError")

/-- The process-wide environment slice `execute` touches: the two AWS
variables assigned at braket.py lines 103-104, plus all other entries. -/
structure ProcEnv where
  awsSharedCredentialsFile : Option String
  awsProfile : Option String
  other : List (String × String)
  deriving DecidableEq

/-- Embeds `os.environ["AWS_SHARED_CREDENTIALS_FILE"] = self.credentials;
os.environ["AWS_PROFILE"] = self.profile` (braket.py lines 103-104). -/
def setCredentialEnvVars (cfg : BraketConfig) (env : ProcEnv) : ProcEnv :=
  { env with
    awsSharedCredentialsFile := some cfg.credentials
    awsProfile := some cfg.profile }

/-- The responses of the remote services during one `execute` call:
`identityAccount` is `sts.get_caller_identity().get("Account")`, `statuses`
the successive `get_job` statuses, `failureReason` the reason `get_job`
reports when FAILED, and the rest feeds `_query_result`. -/
structure RemoteEnv where
  identityAccount : Option String
  statuses : List String
  failureReason : String
  resultValue : Nat
  deserializeOk : Bool
  streamsFor : String → List String
  eventsFor : String → List String

/-- Outcome of `execute`: the early `return None, "", identity` taken when
the account is missing (braket.py line 113), a propagated exception, or the
normal returned triple. -/
inductive ExecResult where
  | identityReturn
  | raised (msg : String)
  | ok (result : Nat) (logs : String) (third : String)
  deriving DecidableEq

/-- Embeds `execute` (braket.py lines 87-160).  Returns the final process
environment, whether `braket.create_job` was called, and the outcome
(`none` when the status responses run out before a terminal status).
`_package_and_upload` and `create_job` have no effect on the modelled
state other than the job submission itself, which the Bool records. -/
def execute (cfg : BraketConfig) (env : ProcEnv) (remote : RemoteEnv)
    (dispatchId : String) (nodeId : Int) :
    ProcEnv × Bool × Option ExecResult :=
  let tag := imageTag dispatchId nodeId
  let env1 := setCredentialEnvVars cfg env
  match remote.identityAccount with
  | none => (env1, false, some ExecResult.identityReturn)
  | some _ =>
    match pollBraketJob cfg.pollFreq remote.statuses remote.failureReason with
    | none => (env1, true, none)
    | some (Except.error reason) => (env1, true, some (ExecResult.raised reason))
    | some (Except.ok _) =>
      match queryResult remote.deserializeOk remote.resultValue tag
          remote.streamsFor remote.eventsFor with
      | (_, QueryOutcome.ok r logs third) => (env1, true, some (ExecResult.ok r logs third))
      | (_, QueryOutcome.raised e) => (env1, true, some (ExecResult.raised e))

/-- Embeds `os.path.basename`: the part of the path after the last slash. -/
def basename (p : String) : String :=
  String.mk ((p.data.reverse.takeWhile (fun c => c != '/')).reverse)

/-- The in-container working directory (braket.py line 274). -/
def dockerWorkingDir : String := "/opt/ml/code"

/-- Embeds `func_filename = f"func-{image_tag}.pkl"` (braket.py line 273). -/
def funcFilenameOf (tag : String) : String := "func-" ++ tag ++ ".pkl"

/-- Embeds `_format_exec_script` (braket.py lines 162-212): the Python template with
its placeholders substituted.  `args` and `kwargs` stand for the textual form
`str.format` produces for the argument list and keyword dictionary. -/
def formatExecScript (s3BucketName funcFilename resultFilename workingDir args kwargs : String) :
    String :=
  "\nimport os\nimport boto3\nimport cloudpickle as pickle\n\nlocal_func_filename = os.path.join(\"" ++
    workingDir ++ "\", \"" ++ funcFilename ++
    "\")\nlocal_result_filename = os.path.join(\"" ++ workingDir ++ "\", \"" ++
    resultFilename ++
    "\")\n\ns3 = boto3.client(\"s3\")\ns3.download_file(\"" ++ s3BucketName ++
    "\", \"" ++ funcFilename ++
    "\", local_func_filename)\n\nwith open(local_func_filename, \"rb\") as f:\n    function = pickle.load(f)\n\nresult = function(*" ++
    args ++ ", **" ++ kwargs ++
    ")\n\nwith open(local_result_filename, \"wb\") as f:\n    pickle.dump(result, f)\n\ns3.upload_file(local_result_filename, \"" ++
    s3BucketName ++ "\", \"" ++ resultFilename ++ "\")\n"

/-- Embeds `_format_dockerfile` (braket.py lines 214-248): the Dockerfile template
with `func_basename = os.path.basename(exec_script_filename)` and the working
directory substituted. -/
def formatDockerfile (execScriptFilename workingDir : String) : String :=
  "\nFROM python:3.8-slim-buster\n\nRUN apt-get update && apt-get install -y \\\n  gcc \\\n  && rm -rf /var/lib/apt/lists/*\nRUN pip install --no-cache-dir --use-feature=in-tree-build --upgrade \\\n  amazon-braket-pennylane-plugin \\\n  boto3==1.20.48 \\\n  cloudpickle==2.0.0 \\\n  pennylane==0.16.0 \\\n  sagemaker-training\n\nWORKDIR " ++
    workingDir ++ "\n\nCOPY " ++ basename execScriptFilename ++ " " ++ workingDir ++
    "\n\nENV SAGEMAKER_PROGRAM " ++ basename execScriptFilename ++ "\n"

/-- The textual build recipe `_package_and_upload` produces (braket.py lines
273-304): the execution script and the Dockerfile.  `execScriptTempName` is
the name of the temporary file `tempfile.NamedTemporaryFile` picked for the
execution script; the Dockerfile embeds its basename. -/
def buildRecipe (cfg : BraketConfig) (tag resultFilename args kwargs execScriptTempName : String) :
    String × String :=
  (formatExecScript cfg.s3BucketName (funcFilenameOf tag) resultFilename dockerWorkingDir
      args kwargs,
    formatDockerfile execScriptTempName dockerWorkingDir)

/-! Concrete fixtures used by witnesses and counterexamples. -/

def cfg0 : BraketConfig :=
  { credentials := "cred"
    profile := "prof"
    s3BucketName := "bucket"
    ecrRepoName := "repo"
    braketJobExecutionRoleName := "role"
    quantumDevice := "qdev"
    classicalDevice := "cdev"
    storage := 30
    timeLimit := 300
    pollFreq := 30 }

def env0 : ProcEnv :=
  { awsSharedCredentialsFile := none
    awsProfile := some "x"
    other := [("PATH", "/usr/bin")] }

def noStreams : String → List String := fun _ => []

def oneStreamList : String → List String := fun _ => ["stream-1"]

def constEvents : String → List String := fun _ => ["a", "b"]

def remoteNoAccount : RemoteEnv :=
  { identityAccount := none
    statuses := []
    failureReason := ""
    resultValue := 0
    deserializeOk := true
    streamsFor := noStreams
    eventsFor := constEvents }

theorem concatLogs_eq_join (ms : List String) :
    concatLogs ms = String.join (ms.map (fun m => m ++ "\n")) := by
  unfold concatLogs String.join
  rw [List.foldl_map]
  congr 1
  funext acc m
  exact String.append_assoc acc m "\n"

/-! Claim theorems. -/

/-- Claim C1: for a finite response sequence whose last element is terminal
and all earlier elements non-terminal, the poll loop stops exactly at the
first terminal value (returning it), performs one status query per
non-terminal value plus the final terminal query, and sleeps the configured
interval between consecutive queries and never before the first query (the
trace is queries interspersed with single sleeps, starting with a query). -/
theorem poll_loop_terminates_at_first_terminal (pollFreq : Nat) (ss : List String)
    (h : ss ≠ []) (hterm : isTerminal (ss.getLast h) = true)
    (hpre : ∀ s ∈ ss.dropLast, isTerminal s = false) :
    pollLoop pollFreq ss = some (ss.getLast h, pollTrace pollFreq ss) ∧
    countQueries (pollTrace pollFreq ss) = ss.dropLast.length + 1 ∧
    countSleeps (pollTrace pollFreq ss) = ss.dropLast.length ∧
    (pollTrace pollFreq ss).head? = some (Event.query (ss.head h)) := by
  have hlen : 0 < ss.length := List.length_pos.mpr h
  refine ⟨pollLoop_eq_pollTrace pollFreq ss h hterm hpre, ?_, ?_, ?_⟩
  · rw [countP_pollTrace_queries, List.length_dropLast]
    omega
  · rw [countP_pollTrace_sleeps, List.length_dropLast]
  · match ss, h with
    | s :: rest, _ => rw [pollTrace_head, List.head_cons]

/-- Claim C1 witness at the sequence QUEUED, RUNNING, COMPLETED with the
default 30-unit interval. -/
theorem poll_loop_terminates_at_first_terminal_witness :
    pollLoop 30 ["QUEUED", "RUNNING", "COMPLETED"] =
      some ("COMPLETED",
        [Event.query "QUEUED", Event.sleep 30, Event.query "RUNNING",
          Event.sleep 30, Event.query "COMPLETED"]) :=
  (poll_loop_terminates_at_first_terminal 30 ["QUEUED", "RUNNING", "COMPLETED"]
    (by decide) (by decide) (by decide)).1

/-- Claim C2: when the first terminal status is FAILED, polling ends in a
raised error carrying exactly the failure-reason string the job service
returns. -/
theorem poll_failed_raises_failure_reason (pollFreq : Nat) (ss : List String)
    (reason : String) (h : ss ≠ []) (hlast : ss.getLast h = "FAILED")
    (hpre : ∀ s ∈ ss.dropLast, isTerminal s = false) :
    pollBraketJob pollFreq ss reason = some (Except.error reason) := by
  have hterm : isTerminal (ss.getLast h) = true := by rw [hlast]; rfl
  have hp := pollLoop_eq_pollTrace pollFreq ss h hterm hpre
  simp [pollBraketJob, hp, hlast]

/-- Claim C2 witness: the QUEUED, FAILED sequence with reason string
`error`. -/
theorem poll_failed_raises_failure_reason_witness :
    pollBraketJob 30 ["QUEUED", "FAILED"] "error" = some (Except.error "error") :=
  poll_failed_raises_failure_reason 30 ["QUEUED", "FAILED"] "error"
    (by decide) (by decide) (by decide)

/-- Claim C3 counterexample: with identity resolution returning no account,
`execute` does not raise anything — it returns normally with the early
`(None, "", identity)` value (and indeed submits no job); in particular the
outcome is not a raised `IdentityError`. -/
theorem execute_no_account_counterexample :
    execute cfg0 env0 remoteNoAccount "d" 0 =
      (setCredentialEnvVars cfg0 env0, false, some ExecResult.identityReturn) ∧
    ExecResult.identityReturn ≠ ExecResult.raised "IdentityError" :=
  ⟨rfl, by decide⟩

/-- Claim C3 amended: when identity resolution returns no usable account
identifier, `execute` returns early with `(None, "", identity)` — it does not
raise — and no job-creation call occurs (the submission flag is `false`). -/
theorem execute_no_account_returns (cfg : BraketConfig) (env : ProcEnv)
    (remote : RemoteEnv) (dispatchId : String) (nodeId : Int)
    (h : remote.identityAccount = none) :
    execute cfg env remote dispatchId nodeId =
      (setCredentialEnvVars cfg env, false, some ExecResult.identityReturn) := by
  simp [execute, h]

/-- Claim C3 amended witness. -/
theorem execute_no_account_returns_witness :
    execute cfg0 env0 remoteNoAccount "e" 1 =
      (setCredentialEnvVars cfg0 env0, false, some ExecResult.identityReturn) :=
  execute_no_account_returns cfg0 env0 remoteNoAccount "e" 1 rfl

/-- Claim C4: on the success path the retriever returns the triple of the
deserialized result, the concatenation of each event message followed by a
newline in service order, and the empty string; the concatenation agrees with
the order-preserving join, and on messages `a`, `b` it yields the seven
characters `a`, newline, `b`, newline. -/
theorem query_result_success_shape (v : Nat) (tag sName : String) (rest : List String)
    (streamsFor eventsFor : String → List String)
    (hs : streamsFor (logStreamPrefixOf tag) = sName :: rest) :
    queryResult true v tag streamsFor eventsFor =
      (true, QueryOutcome.ok v (concatLogs (eventsFor sName)) "") ∧
    concatLogs (eventsFor sName) =
      String.join ((eventsFor sName).map (fun m => m ++ "\n")) ∧
    concatLogs ["a", "b"] = "a\nb\n" := by
  refine ⟨by simp [queryResult, hs], concatLogs_eq_join (eventsFor sName), rfl⟩

/-- Claim C4 witness with one stream and the event messages `a`, `b`. -/
theorem query_result_success_shape_witness :
    queryResult true 7 "t" oneStreamList constEvents =
      (true, QueryOutcome.ok 7 (concatLogs (constEvents "stream-1")) "") :=
  (query_result_success_shape 7 "t" "stream-1" [] oneStreamList constEvents rfl).1

/-- Claim C5: the code passes the fixed literal string of the characters
`covalent-` followed by a braced placeholder to the log service (the
assignment at line 408 is a plain string, not an f-string), so the prefix is
identical for the distinct image tags of two different invocations. -/
theorem log_stream_prefix_ignores_image_tag :
    logStreamPrefixOf (imageTag "d1" 0) = logStreamPrefixOf (imageTag "d2" 1) ∧
    imageTag "d1" 0 ≠ imageTag "d2" 1 :=
  ⟨rfl, by decide⟩

/-- Claim C6 counterexample: on an empty stream list the retrieval raises an
index error instead of degrading to empty logs; in particular it does not
return the graceful triple with the result value and empty logs. -/
theorem query_result_empty_streams_counterexample :
    queryResult true 7 "t" noStreams constEvents =
      (true, QueryOutcome.raised "IndexError") ∧
    QueryOutcome.raised "IndexError" ≠ QueryOutcome.ok 7 "" "" :=
  ⟨rfl, by decide⟩

/-- Claim C6 amended: when the log service returns no stream for the prefix,
result retrieval fails with an index error (the subscript `[0]` on the empty
stream list); the result value is not returned. -/
theorem query_result_empty_streams_raises (v : Nat) (tag : String)
    (streamsFor eventsFor : String → List String)
    (hs : streamsFor (logStreamPrefixOf tag) = []) :
    queryResult true v tag streamsFor eventsFor =
      (true, QueryOutcome.raised "IndexError") := by
  simp [queryResult, hs]

/-- Claim C6 amended witness. -/
theorem query_result_empty_streams_raises_witness :
    queryResult true 5 "u" noStreams constEvents =
      (true, QueryOutcome.raised "IndexError") :=
  query_result_empty_streams_raises 5 "u" noStreams constEvents rfl

/-- Claim C7 counterexample: when deserialization raises, the local scratch
copy is not removed (the removal flag is `false`), because the exception
propagates before the `os.remove` line. -/
theorem query_result_not_removed_on_failure_counterexample :
    queryResult false 7 "t" oneStreamList constEvents =
      (false, QueryOutcome.raised "UnpicklingError") := rfl

/-- Claim C7 amended: the local scratch copy is removed exactly when
deserialization succeeds — removed on success (even when the later log lookup
fails), not removed when `pickle.load` raises. -/
theorem query_result_removed_iff_deserialize_ok (deserializeOk : Bool) (v : Nat)
    (tag : String) (streamsFor eventsFor : String → List String) :
    (queryResult deserializeOk v tag streamsFor eventsFor).1 = deserializeOk := by
  cases deserializeOk with
  | false => rfl
  | true => cases hs : streamsFor (logStreamPrefixOf tag) <;> simp [queryResult, hs]

/-- Claim C8 counterexample: the map from pairs to tags is not injective —
the distinct pairs with dispatch id `a`, node `-1` and dispatch id `a-`,
node `1` produce the same tag `a--1`. -/
theorem imageTag_not_injective_counterexample :
    imageTag "a" (-1) = imageTag "a-" 1 ∧ ("a", (-1 : Int)) ≠ ("a-", (1 : Int)) :=
  ⟨rfl, by decide⟩

/-- Claim C8 amended: equal pairs give equal tags (the tag is a pure function
of the pair), and the map is injective in the dispatch id for a fixed node id;
joint injectivity on pairs fails (see the counterexample). -/
theorem imageTag_pure_and_injective_in_dispatch (d1 d2 : String) (n m : Int) :
    (d1 = d2 → n = m → imageTag d1 n = imageTag d2 m) ∧
    (imageTag d1 n = imageTag d2 n → d1 = d2) := by
  constructor
  · intro h1 h2; rw [h1, h2]
  · intro h
    have hd : d1.data ++ ("-" ++ toString n).data = d2.data ++ ("-" ++ toString n).data := by
      have hdata := congrArg String.data h
      simpa [imageTag, String.data_append, List.append_assoc] using hdata
    exact String.ext (List.append_cancel_right hd)

/-- Claim C8 amended witness. -/
theorem imageTag_pure_and_injective_in_dispatch_witness :
    imageTag "d1" 5 = imageTag "d1" 5 ∧ ("d1" : String) = "d1" :=
  ⟨(imageTag_pure_and_injective_in_dispatch "d1" "d1" 5 5).1 rfl rfl,
    (imageTag_pure_and_injective_in_dispatch "d1" "d1" 5 5).2 rfl⟩

/-- Claim C9 counterexample: `execute` mutates the process-wide credential
configuration — starting from an environment whose profile differs from the
executor's configured profile, the environment after `execute` differs from
the environment before. -/
theorem execute_mutates_credential_env :
    (execute cfg0 env0 remoteNoAccount "d" 0).1 ≠ env0 := by decide

/-- Claim C9 amended: `execute` sets the credential-file and profile
environment entries to the configured values at its start, leaves every other
entry unchanged, and leaves the environment unchanged exactly when the two
entries already equal the configured values. -/
theorem execute_env_effect (cfg : BraketConfig) (env : ProcEnv) (remote : RemoteEnv)
    (dispatchId : String) (nodeId : Int) :
    (execute cfg env remote dispatchId nodeId).1 = setCredentialEnvVars cfg env ∧
    (execute cfg env remote dispatchId nodeId).1.other = env.other ∧
    ((execute cfg env remote dispatchId nodeId).1 = env ↔
      env.awsSharedCredentialsFile = some cfg.credentials ∧
        env.awsProfile = some cfg.profile) := by
  have h1 : (execute cfg env remote dispatchId nodeId).1 = setCredentialEnvVars cfg env := by
    unfold execute
    cases remote.identityAccount with
    | none => rfl
    | some a =>
      cases hpb : pollBraketJob cfg.pollFreq remote.statuses remote.failureReason with
      | none => simp [hpb]
      | some r =>
        cases r with
        | error reason => simp [hpb]
        | ok p =>
          cases hq : queryResult remote.deserializeOk remote.resultValue
              (imageTag dispatchId nodeId) remote.streamsFor remote.eventsFor with
          | mk b out => cases out <;> simp [hpb, hq]
  refine ⟨h1, by rw [h1]; rfl, ?_⟩
  rw [h1]
  constructor
  · intro he
    exact ⟨(congrArg ProcEnv.awsSharedCredentialsFile he).symm,
      (congrArg ProcEnv.awsProfile he).symm⟩
  · intro hab
    obtain ⟨ha, hb⟩ := hab
    cases env
    simp only [setCredentialEnvVars] at *
    simp_all

set_option maxRecDepth 8000 in
/-- Claim C10 counterexample: two packaging runs equal in callable text,
arguments, image tag and configuration, differing only in the ephemeral
temporary file name picked for the execution script, produce different
Dockerfile text (the Dockerfile embeds the script's basename). -/
theorem buildRecipe_differs_across_temp_names :
    (buildRecipe cfg0 "d-0" "result-d-0.pkl" "[]" "\x7b\x7d" "/tmp/covalent/tmpaaaa.py").2 ≠
      (buildRecipe cfg0 "d-0" "result-d-0.pkl" "[]" "\x7b\x7d" "/tmp/covalent/tmpbbbb.py").2 := by
  decide

/-- Claim C10 amended: the execution-script text depends only on the payload
and configuration — it is identical across runs regardless of the temporary
file name — and the full recipe (script and Dockerfile) is character-identical
for two runs whenever their temporary script files also share a basename. -/
theorem buildRecipe_deterministic (cfg : BraketConfig)
    (tag resultFilename args kwargs n1 n2 : String) :
    (buildRecipe cfg tag resultFilename args kwargs n1).1 =
      (buildRecipe cfg tag resultFilename args kwargs n2).1 ∧
    (basename n1 = basename n2 →
      buildRecipe cfg tag resultFilename args kwargs n1 =
        buildRecipe cfg tag resultFilename args kwargs n2) := by
  constructor
  · rfl
  · intro h
    simp [buildRecipe, formatDockerfile, h]

/-- Claim C10 amended witness: two temp paths with the same basename. -/
theorem buildRecipe_deterministic_witness :
    buildRecipe cfg0 "d-0" "r.pkl" "[]" "\x7b\x7d" "/tmp/a/script.py" =
      buildRecipe cfg0 "d-0" "r.pkl" "[]" "\x7b\x7d" "/tmp/b/script.py" :=
  (buildRecipe_deterministic cfg0 "d-0" "r.pkl" "[]" "\x7b\x7d" "/tmp/a/script.py"
    "/tmp/b/script.py").2 (by decide)

end BraketPlugin
